import Mathlib

/-!
Verification development for the collaborative-hobby-tracker backend
authentication and authorization core.

Shallow embedding conventions:
* Go strings are Lean `String`; Go `len` on a string is UTF-8 byte size
  (`goLen`).
* MongoDB ObjectIDs are opaque values carrying their hex rendering.
* Times are integers; for the Token Service an instant is nanoseconds
  since the epoch (so `time.Duration` values and `.Unix()` truncation
  keep their Go meaning), and `time.Now()` is passed explicitly.
* Fallible Go functions return `Except`/`Option`; the distinguished
  `ErrUserNotFound` sentinel of the repository layer is a constructor.
* Blocking collaborator calls (Mongo lookups/inserts, provider HTTP) are
  passed in as explicit outcome parameters, so the embedded functions are
  the pure control flow of the Go source over those outcomes.
-/

deriving instance DecidableEq for Except

namespace HobbyTracker

/-- Go `len` of a string counts UTF-8 bytes. -/
def goLen (s : String) : Nat := s.utf8ByteSize

/-- MongoDB ObjectID, identified by its hex rendering (`primitive.ObjectID.Hex`). -/
structure ObjectID where
  hex : String
deriving DecidableEq

/-- Go `type AccessLevel string` from internal/domain/models/circle.go. -/
abbrev AccessLevel := String

/-- Constant `AccessLevelPrivate` ("private"). -/
def AccessLevelPrivate : AccessLevel := "private"

/-- Constant `AccessLevelView` ("view"). -/
def AccessLevelView : AccessLevel := "view"

/-- Constant `AccessLevelEdit` ("edit"). -/
def AccessLevelEdit : AccessLevel := "edit"

/-- Constant `AccessLevelAdmin` ("admin"). -/
def AccessLevelAdmin : AccessLevel := "admin"

/-- `models.CircleMember`: user id, access level, invited-at, optional accepted-at. -/
structure CircleMember where
  userID : ObjectID
  accessLevel : AccessLevel
  invitedAt : Int
  acceptedAt : Option Int := none
deriving DecidableEq

/-- `models.Circle`: id, name, owner id, member list, timestamps. -/
structure Circle where
  id : ObjectID
  name : String
  ownerID : ObjectID
  members : List CircleMember
  createdAt : Int
  updatedAt : Int
deriving DecidableEq

/-- First member entry with the given user id, mirroring the linear scan
in `Circle.GetMemberAccessLevel` / `Circle.HasMember`. -/
def lookupMember : List CircleMember → ObjectID → Option CircleMember
  | [], _ => none
  | m :: rest, uid => if m.userID = uid then some m else lookupMember rest uid

/-- `Circle.HasMember` from internal/domain/models/circle.go. -/
def HasMember (c : Circle) (userID : ObjectID) : Bool :=
  (lookupMember c.members userID).isSome

/-- `Circle.GetMemberAccessLevel` from internal/domain/models/circle.go:
owner resolves to admin before the member list is consulted; otherwise the
first matching member entry's level; otherwise `("", false)`. -/
def GetMemberAccessLevel (c : Circle) (userID : ObjectID) : AccessLevel × Bool :=
  if c.ownerID = userID then (AccessLevelAdmin, true)
  else
    match lookupMember c.members userID with
    | some m => (m.accessLevel, true)
    | none => (("" : String), false)

/-- `Claims` of the Token Service (jwt.go, concatenated into
backend/pkg/auth/password_test.go after a document separator): subject
user id (hex), email, expiry in Unix seconds (`int64`). -/
structure Claims where
  userID : String
  email : String
  expiresAt : Int
deriving DecidableEq

/-- Signing algorithm named by a JWT header. The source's keyfunc accepts
exactly the HMAC family (`*jwt.SigningMethodHMAC`: HS256/HS384/HS512). -/
inductive JWTAlg where
  | HS256
  | HS384
  | HS512
  | nonHMAC (name : String)
deriving DecidableEq

/-- Whether the algorithm is in the HMAC family. -/
def JWTAlg.isHMAC : JWTAlg → Bool
  | HS256 => true
  | HS384 => true
  | HS512 => true
  | nonHMAC _ => false

/-- Decoded JWT payload as the source reads it out of `jwt.MapClaims`:
each field is present iff the JSON object carries that key with the
type the source asserts (`user_id` string, `email` string, `exp` JSON
number, holding Unix seconds). -/
structure JWTPayload where
  userID : Option String
  email : Option String
  exp : Option Int
deriving DecidableEq

/-- Symbolic HMAC-SHA tag over a token's header and payload: an ideal MAC
is injective in (algorithm, payload, key), so the tag is modelled as that
triple; a forged or wrong-secret token carries a tag that differs from
the one recomputed with the verifier's secret. -/
structure JWTMac where
  alg : JWTAlg
  payload : JWTPayload
  key : String
deriving DecidableEq

/-- A JWT compact serialization: either a structurally valid
header.payload.signature triple, or a string `jwt.Parse` rejects as
malformed (the empty string among them). -/
inductive JWTToken where
  | signed (alg : JWTAlg) (payload : JWTPayload) (mac : JWTMac)
  | unparsable (raw : String)
deriving DecidableEq

/-- Error paths of `ValidateToken`, one per distinct error the source
constructs: the empty-string guard, `jwt.Parse` failures (malformed
input, the keyfunc's "invalid signing method", signature mismatch,
expired token), and the three claim-extraction type assertions. -/
inductive TokenErr where
  | emptyToken
  | parseFailed
  | invalidSigningMethod
  | invalidSignature
  | expired
  | invalidUserIDClaim
  | invalidEmailClaim
  | invalidExpClaim
deriving DecidableEq

/-- `GenerateToken(userID, email, secret, duration)` from the Token
Service: `expiresAt := time.Now().Add(duration).Unix()` — instants are
nanoseconds since the epoch (`time.Now()` passed as `now`), and `.Unix()`
truncates to whole seconds, i.e. floor division by 1e9 (`/` on `Int` is
Euclidean division, which equals floor division for this positive
divisor) — then the claims `{user_id: userID.Hex(), email, exp}` are
signed with HS256 over the secret. HMAC signing of these marshalable
claims with a byte-slice key cannot fail, so the source's error return
is dead code and the result is the token itself. -/
def GenerateToken (userID : ObjectID) (email secret : String) (now duration : Int) :
    JWTToken :=
  let expiresAt : Int := (now + duration) / 1000000000
  let payload : JWTPayload :=
    { userID := some userID.hex, email := some email, exp := some expiresAt }
  .signed .HS256 payload { alg := .HS256, payload := payload, key := secret }

/-- Expiry validation performed inside `jwt.Parse` (golang-jwt/v5
validator): a token is unexpired iff the validation instant lies strictly
before the `exp` claim's second (`cmp.Before(exp.Time)`); a missing `exp`
passes, since the claim is not required. -/
def jwtExpValid (payload : JWTPayload) (now : Int) : Bool :=
  match payload.exp with
  | none => true
  | some e => decide (now < e * 1000000000)

/-- `ValidateToken(tokenString, secret)` from the Token Service: rejects
the empty string, then `jwt.Parse` rejects malformed input, a non-HMAC
signing method (the keyfunc), a signature that does not verify against
the secret, and an expired token — in that order — and finally the
`user_id`/`email`/`exp` claims are extracted, each with its own failure
when absent or of the wrong type. The source's `!token.Valid` branch and
its `jwt.MapClaims` type assertion cannot fail once `jwt.Parse` returned
no error and are not modelled. -/
def ValidateToken (tok : JWTToken) (secret : String) (now : Int) :
    Except TokenErr Claims :=
  match tok with
  | .unparsable raw =>
    if raw = "" then .error .emptyToken else .error .parseFailed
  | .signed alg payload mac =>
    if ¬ alg.isHMAC then .error .invalidSigningMethod
    else if mac ≠ { alg := alg, payload := payload, key := secret } then
      .error .invalidSignature
    else if ¬ jwtExpValid payload now then .error .expired
    else
      match payload.userID with
      | none => .error .invalidUserIDClaim
      | some uid =>
        match payload.email with
        | none => .error .invalidEmailClaim
        | some em =>
          match payload.exp with
          | none => .error .invalidExpClaim
          | some e => .ok { userID := uid, email := em, expiresAt := e }

/-- `models.User` from internal/domain/models/user.go. Fields without an
explicit value in a Go composite literal take the zero value `""`/`0`. -/
structure User where
  id : ObjectID
  email : String
  passwordHash : String := ""
  name : String
  avatarURL : String := ""
  oauthProvider : String := ""
  oauthProviderName : String := ""
  createdAt : Int
  updatedAt : Int
deriving DecidableEq

/-- Classes of raw storage-layer failures reported by the Mongo driver to
the repository layer. `duplicateKey` is the uniqueness-violation error an
insert reports when a unique index is violated. -/
inductive StorageErr where
  | duplicateKey
  | other (msg : String)
deriving DecidableEq

/-- Errors of the user repository layer (internal/repository):
`userNotFound` is the `ErrUserNotFound` sentinel; `createFailed` and
`findFailed` are the `fmt.Errorf`-wrapped driver failures of
`mongoUserRepository.Create` / `FindByEmail`. -/
inductive RepoUserErr where
  | userNotFound
  | createFailed (cause : StorageErr)
  | findFailed (cause : StorageErr)
deriving DecidableEq

/-- `mongoUserRepository.Create` wraps every insert failure — including a
duplicate-key uniqueness violation — uniformly as
"failed to create user: %w"; it never inspects the cause. -/
def mongoUserCreate (insertRes : Option StorageErr) : Option RepoUserErr :=
  match insertRes with
  | none => none
  | some e => some (.createFailed e)

/-- Errors returned by the credential auth service (package auth in the
service layer): the named sentinel errors, plus the `fmt.Errorf`-wrapped
propagation cases. -/
inductive AuthErr where
  | emailRequired
  | passwordRequired
  | nameRequired
  | invalidEmail
  | passwordTooShort
  | emailAlreadyExists
  | invalidCredentials
  | checkExistingFailed (cause : RepoUserErr)
  | createUserFailed (cause : RepoUserErr)
  | findUserFailed (cause : RepoUserErr)
deriving DecidableEq

/-- ASCII letter, the class `[a-zA-Z]`. -/
def isAlphaChar (c : Char) : Bool :=
  (65 ≤ c.toNat && c.toNat ≤ 90) || (97 ≤ c.toNat && c.toNat ≤ 122)

/-- ASCII digit, the class `[0-9]`. -/
def isDigitChar (c : Char) : Bool :=
  48 ≤ c.toNat && c.toNat ≤ 57

/-- Character class `[a-zA-Z0-9._%+\-]` of the local part of `emailRegex`. -/
def isLocalChar (c : Char) : Bool :=
  isAlphaChar c || isDigitChar c || c == '.' || c == '_' || c == '%' || c == '+' || c == '-'

/-- Character class `[a-zA-Z0-9.\-]` of the domain part of `emailRegex`. -/
def isDomainChar (c : Char) : Bool :=
  isAlphaChar c || isDigitChar c || c == '.' || c == '-'

/-- Split a character list at its first `@`, returning the parts before
and after it. -/
def splitAtFirstAmp : List Char → Option (List Char × List Char)
  | [] => none
  | c :: cs =>
    if c == '@' then some ([], cs)
    else
      match splitAtFirstAmp cs with
      | some (l, r) => some (c :: l, r)
      | none => none

/-- Split a character list at its last `.`, returning the parts before
and after it. -/
def splitAtLastDot : List Char → Option (List Char × List Char)
  | [] => none
  | c :: cs =>
    match splitAtLastDot cs with
    | some (d, t) => some (c :: d, t)
    | none => if c == '.' then some ([], cs) else none

/-- Whole-string matcher for
`emailRegex = ^[a-zA-Z0-9._%+\-]+@[a-zA-Z0-9.\-]+\.[a-zA-Z]{2,}$`:
a string matches iff it decomposes as local `@` domain `.` tld with the
local part non-empty over its class, the domain part non-empty over its
class, and the tld at least two ASCII letters. Since neither class
contains `@` and the tld is letters only, the separating `@` is the first
`@` and the separating `.` is the last `.`, so the decomposition is
computed directly. -/
def emailRegexMatch (s : String) : Bool :=
  match splitAtFirstAmp s.data with
  | none => false
  | some (l, rest) =>
    match splitAtLastDot rest with
    | none => false
    | some (d, t) =>
      !l.isEmpty && l.all isLocalChar &&
      !d.isEmpty && d.all isDomainChar &&
      decide (2 ≤ t.length) && t.all isAlphaChar

/-- Constant `minPasswordLength = 8` of the auth service. -/
def minPasswordLength : Nat := 8

/-- Models the external golang.org/x/crypto/bcrypt dependency:
`CompareHashAndPassword` first parses the stored hash and rejects any hash
shorter than `minHashSize = 59` bytes (`ErrHashTooShort`), so comparison
against such a hash — in particular the empty hash — fails for every
password; the cryptographic comparison for well-formed hashes is
abstracted as the parameter `cryptoEq`. Returns `true` iff the password
matches (a `nil` error in Go). -/
def bcryptCompare (cryptoEq : String → String → Bool) (hash password : String) : Bool :=
  if goLen hash < 59 then false else cryptoEq hash password

/-- `auth.VerifyPassword(hash, password)` from backend/pkg/auth/password.go:
directly delegates to `bcrypt.CompareHashAndPassword`. -/
def VerifyPassword (cryptoEq : String → String → Bool) (hash password : String) : Bool :=
  bcryptCompare cryptoEq hash password

/-- `AuthResult` of the auth service: token plus identifying fields. -/
structure AuthResult where
  token : JWTToken
  userID : String
  email : String
  name : String
deriving DecidableEq

/-- `Service.Register(ctx, email, password, name)`: the validation chain,
the existing-email lookup (whose outcome `lookupRes` is the collaborating
repository's `FindByEmail` response, with `.error .userNotFound` the
success path), password hashing (abstracted as `hashFn`), user creation
(`insertRes` is the Mongo insert outcome, wrapped by `mongoUserCreate`,
and `newID` the ObjectID assigned at creation), then token issuance. -/
def Register (email password name : String)
    (lookupRes : Except RepoUserErr User)
    (insertRes : Option StorageErr)
    (hashFn : String → String)
    (newID : ObjectID) (now duration : Int) (secret : String) :
    Except AuthErr AuthResult :=
  if email = "" then .error .emailRequired
  else if password = "" then .error .passwordRequired
  else if name = "" then .error .nameRequired
  else if !emailRegexMatch email then .error .invalidEmail
  else if goLen password < minPasswordLength then .error .passwordTooShort
  else
    match lookupRes with
    | .ok _ => .error .emailAlreadyExists
    | .error .userNotFound =>
      match mongoUserCreate insertRes with
      | some e => .error (.createUserFailed e)
      | none =>
        let user : User :=
          { id := newID, email := email, passwordHash := hashFn password,
            name := name, createdAt := now, updatedAt := now }
        .ok { token := GenerateToken newID email secret now duration,
              userID := user.id.hex, email := user.email, name := user.name }
    | .error e => .error (.checkExistingFailed e)

/-- `Service.Login(ctx, email, password)`: non-emptiness checks, lookup by
email (`lookupRes`), password verification against the stored hash, then
token issuance. A `userNotFound` lookup and a failed verification both
return the same `invalidCredentials` error. -/
def Login (email password : String)
    (lookupRes : Except RepoUserErr User)
    (cryptoEq : String → String → Bool)
    (secret : String) (now duration : Int) :
    Except AuthErr AuthResult :=
  if email = "" then .error .emailRequired
  else if password = "" then .error .passwordRequired
  else
    match lookupRes with
    | .error .userNotFound => .error .invalidCredentials
    | .error e => .error (.findUserFailed e)
    | .ok user =>
      if VerifyPassword cryptoEq user.passwordHash password then
        .ok { token := GenerateToken user.id email secret now duration,
              userID := user.id.hex, email := user.email, name := user.name }
      else .error .invalidCredentials

/-- `GitHubEmail` from internal/service/auth/oauth_github.go: one entry of
the provider's email listing. -/
structure GitHubEmail where
  email : String
  primary : Bool
  verified : Bool
deriving DecidableEq, Inhabited

/-- First loop of `getGitHubUserEmail`: scan for an entry with
`email.Primary && email.Verified`. -/
def findPrimaryVerifiedEmail : List GitHubEmail → Option String
  | [] => none
  | e :: rest =>
    if e.primary && e.verified then some e.email else findPrimaryVerifiedEmail rest

/-- Second loop of `getGitHubUserEmail`: scan for an entry with
`email.Verified`. -/
def findVerifiedEmail : List GitHubEmail → Option String
  | [] => none
  | e :: rest =>
    if e.verified then some e.email else findVerifiedEmail rest

/-- Selection core of `OAuthService.getGitHubUserEmail`, applied to the
decoded email list: the primary-and-verified scan, then the verified scan,
then `emails[0].Email` when `len(emails) > 0`, else the
"no email found for user" error. -/
def getGitHubUserEmail (emails : List GitHubEmail) : Except String String :=
  match findPrimaryVerifiedEmail emails with
  | some s => .ok s
  | none =>
    match findVerifiedEmail emails with
    | some s => .ok s
    | none =>
      if 0 < emails.length then
        .ok ((emails.headI).email)
      else
        .error "no email found for user"

/-- Modelled from the spec: email selection as the spec words it —
"select, in order: the email marked primary-and-verified; else the first
verified email; else the first email present; else fail with no email
found" — written as a single recursive descent for comparison with the
source-derived `getGitHubUserEmail`. -/
def specEmailSelection (emails : List GitHubEmail) : Except String String :=
  match emails.find? (fun e => e.primary && e.verified) with
  | some e => .ok e.email
  | none =>
    match emails.find? (fun e => e.verified) with
    | some e => .ok e.email
    | none =>
      match emails.head? with
      | some e => .ok e.email
      | none => .error "no email found for user"

/-- `GitHubUserInfo` from internal/service/auth/oauth_github.go. -/
structure GitHubUserInfo where
  id : Int
  login : String
  name : String
deriving DecidableEq

/-- Find-or-create step of `OAuthService.HandleGitHubCallback` (after the
provider calls): `lookupRes` is the repository's `FindByEmail` response
for the resolved email. On `userNotFound` a new user is created with no
password hash and the GitHub linkage (`strconv.Itoa(userInfo.ID)`,
"github"); on a found user the linkage is backfilled only when
`user.OAuthProvider` is empty, otherwise the user is left untouched; any
other lookup failure propagates. The repository write itself is the
collaborator and is not modelled here. -/
def resolveGitHubUser (lookupRes : Except RepoUserErr User)
    (userInfo : GitHubUserInfo) (email : String)
    (newID : ObjectID) (now : Int) :
    Except RepoUserErr User :=
  match lookupRes with
  | .error .userNotFound =>
    .ok { id := newID, email := email, name := userInfo.name,
          oauthProvider := toString userInfo.id,
          oauthProviderName := "github",
          createdAt := now, updatedAt := now }
  | .error e => .error e
  | .ok user =>
    if user.oauthProvider = "" then
      .ok { user with oauthProvider := toString userInfo.id,
                      oauthProviderName := "github",
                      updatedAt := now }
    else
      .ok user

/-- Errors of `mongoCircleRepository` membership operations:
"circle not found" (also covering the wrapped not-found of `FindByID`) and
"member not found in circle". -/
inductive CircleRepoErr where
  | circleNotFound
  | memberNotFound
deriving DecidableEq

/-- `mongoCircleRepository.AddMember`: a single `$push` update keyed by the
circle id. `MatchedCount == 0` — the circle id matching no document — is
the only failure; the member is appended unconditionally, with no check of
the existing member list. -/
def AddMember (found : Option Circle) (member : CircleMember) (now : Int) :
    Except CircleRepoErr Circle :=
  match found with
  | none => .error .circleNotFound
  | some c => .ok { c with members := c.members ++ [member], updatedAt := now }

/-- `mongoCircleRepository.RemoveMember`: loads the circle (`found` is the
`FindByID` response), fails with "member not found in circle" when no
member entry carries the user id, and otherwise issues a `$pull` removing
every member entry with that user id. -/
def RemoveMember (found : Option Circle) (userID : ObjectID) (now : Int) :
    Except CircleRepoErr Circle :=
  match found with
  | none => .error .circleNotFound
  | some c =>
    if c.members.any (fun m => m.userID = userID) then
      .ok { c with members := c.members.filter (fun m => decide (m.userID ≠ userID)),
                   updatedAt := now }
    else .error .memberNotFound

/-- Update the access level of the first member entry with the given user
id, as Mongo's positional `$` operator does. -/
def setFirstMemberLevel : List CircleMember → ObjectID → AccessLevel → List CircleMember
  | [], _, _ => []
  | m :: rest, uid, lvl =>
    if m.userID = uid then { m with accessLevel := lvl } :: rest
    else m :: setFirstMemberLevel rest uid lvl

/-- `mongoCircleRepository.UpdateMemberAccess`: loads the circle, fails
with "member not found in circle" when no member entry carries the user
id, and otherwise sets `members.$.access_level` on the first matching
entry. -/
def UpdateMemberAccess (found : Option Circle) (userID : ObjectID)
    (accessLevel : AccessLevel) (now : Int) :
    Except CircleRepoErr Circle :=
  match found with
  | none => .error .circleNotFound
  | some c =>
    if c.members.any (fun m => m.userID = userID) then
      .ok { c with members := setFirstMemberLevel c.members userID accessLevel,
                   updatedAt := now }
    else .error .memberNotFound

/-- Go string conversion `string(r)` for a rune value: a value outside the
valid Unicode scalar range — negative, above 0x10FFFF, or a surrogate —
yields the replacement character U+FFFD. -/
def goStringOfRune (r : Int) : String :=
  if 0 ≤ r ∧ r ≤ 0x10FFFF ∧ ¬ (0xD800 ≤ r ∧ r ≤ 0xDFFF) then
    String.mk [Char.ofNat r.toNat]
  else
    "�"

/-- `generateRandomState` from internal/api/handlers/auth_handler.go: its
body is the fixed expression `"random-state-" + string(rune(123456789))`,
with no randomness source; the `Unit` argument marks one call. -/
def generateRandomState (_call : Unit) : String :=
  "random-state-" ++ goStringOfRune 123456789

/-- State-cookie value set by `AuthHandler.GoogleAuth` (and identically by
`GitHubAuth`): `state := generateRandomState()` then
`c.SetCookie("oauth_state", state, ...)`. -/
def oauthStateCookieValue (call : Unit) : String :=
  generateRandomState call

/-! Helper lemmas about the member-list scan. -/

/-- The scan returns a member entry exactly of the sought user id. -/
theorem lookupMember_userID {l : List CircleMember} {uid : ObjectID} {m : CircleMember}
    (h : lookupMember l uid = some m) : m.userID = uid ∧ m ∈ l := by
  induction l with
  | nil => simp [lookupMember] at h
  | cons x rest ih =>
    by_cases hx : x.userID = uid
    · simp [lookupMember, hx] at h
      subst h
      exact ⟨hx, List.mem_cons_self x rest⟩
    · simp [lookupMember, hx] at h
      obtain ⟨h1, h2⟩ := ih h
      exact ⟨h1, List.mem_cons_of_mem x h2⟩

/-- When no entry carries the user id, the scan fails. -/
theorem lookupMember_eq_none {l : List CircleMember} {uid : ObjectID}
    (h : ∀ m ∈ l, m.userID ≠ uid) : lookupMember l uid = none := by
  induction l with
  | nil => rfl
  | cons x rest ih =>
    simp [lookupMember, h x (List.mem_cons_self x rest)]
    exact ih fun m hm => h m (List.mem_cons_of_mem x hm)

/-- When member user ids are pairwise distinct, the scan finds the unique
entry of the sought user id. -/
theorem lookupMember_eq_some {l : List CircleMember} {uid : ObjectID} {m : CircleMember}
    (hnodup : (l.map (fun x => x.userID)).Nodup)
    (hm : m ∈ l) (hid : m.userID = uid) : lookupMember l uid = some m := by
  induction l with
  | nil => simp at hm
  | cons x rest ih =>
    rcases List.mem_cons.mp hm with rfl | hmem
    · simp [lookupMember, hid]
    · have hx : x.userID ≠ uid := by
        intro hxe
        have : m.userID ∈ rest.map (fun y => y.userID) :=
          List.mem_map_of_mem (fun y => y.userID) hmem
        rw [List.map_cons, List.nodup_cons] at hnodup
        exact hnodup.1 (by rw [hxe, ← hid] at *; exact (hid ▸ this))
      simp [lookupMember, hx]
      exact ih (by rw [List.map_cons, List.nodup_cons] at hnodup; exact hnodup.2) hmem

/-- C1 counterexample: one nanosecond is a strictly positive duration,
yet generating at a whole-second instant stores `exp` truncated to that
same second (`time.Now().Add(1).Unix()`), so validation fails with the
expiry error — at the generation instant shown here, and a fortiori at
every later one — refuting "validation succeeds for every d > 0". -/
theorem tokenRoundTripSubsecond_counterexample :
    (0 : Int) < 1 ∧
    ValidateToken (GenerateToken ⟨"507f1f77bcf86cd799439011"⟩ "e@x.com" "s" 0 1) "s" 0 =
      .error .expired :=
  ⟨by decide, by decide⟩

/-- C1 amended: `GenerateToken` always produces a token (HMAC signing
cannot fail), storing `exp = ⌊(now + d) / 1e9⌋` Unix seconds even for
d ≤ 0; `ValidateToken` with the same secret succeeds — with claims whose
UserID is `userID.Hex()` and whose Email is the given email — exactly
when the validation instant is strictly before that truncated expiry
second. In particular the round trip at the generation instant succeeds
for every duration of at least one second, and fails with the expiry
error for every d ≤ 0. -/
theorem tokenRoundTrip (userID : ObjectID) (email secret : String) (now d : Int) :
    (∀ v : Int, v < ((now + d) / 1000000000) * 1000000000 →
      ValidateToken (GenerateToken userID email secret now d) secret v =
        .ok { userID := userID.hex, email := email,
              expiresAt := (now + d) / 1000000000 }) ∧
    (∀ v : Int, ((now + d) / 1000000000) * 1000000000 ≤ v →
      ValidateToken (GenerateToken userID email secret now d) secret v =
        .error .expired) ∧
    (1000000000 ≤ d →
      ValidateToken (GenerateToken userID email secret now d) secret now =
        .ok { userID := userID.hex, email := email,
              expiresAt := (now + d) / 1000000000 }) ∧
    (d ≤ 0 →
      ValidateToken (GenerateToken userID email secret now d) secret now =
        .error .expired) := by
  have key : ∀ v : Int,
      ValidateToken (GenerateToken userID email secret now d) secret v =
        if v < ((now + d) / 1000000000) * 1000000000 then
          .ok { userID := userID.hex, email := email,
                expiresAt := (now + d) / 1000000000 }
        else .error .expired := by
    intro v
    by_cases h : v < ((now + d) / 1000000000) * 1000000000
    · simp [ValidateToken, GenerateToken, JWTAlg.isHMAC, jwtExpValid, h]
    · simp [ValidateToken, GenerateToken, JWTAlg.isHMAC, jwtExpValid, h]
  refine ⟨fun v hv => by rw [key v, if_pos hv],
          fun v hv => by rw [key v, if_neg (not_lt.mpr hv)],
          fun hd => by rw [key now, if_pos (by omega)],
          fun hd => by rw [key now, if_neg (by omega)]⟩

/-- Witness for C1's amended claim: a one-hour (3.6e12 ns) token
generated and validated at instant 0 yields the expected claims with
expiry second 3600; a zero-duration token is already expired. -/
theorem tokenRoundTrip_witness :
    ValidateToken
        (GenerateToken ⟨"507f1f77bcf86cd799439011"⟩ "test@example.com" "secret" 0
          3600000000000)
        "secret" 0 =
      .ok { userID := "507f1f77bcf86cd799439011", email := "test@example.com",
            expiresAt := 3600 } ∧
    ValidateToken
        (GenerateToken ⟨"507f1f77bcf86cd799439011"⟩ "test@example.com" "secret" 0 0)
        "secret" 0 = .error .expired :=
  ⟨(tokenRoundTrip ⟨"507f1f77bcf86cd799439011"⟩ "test@example.com" "secret" 0
      3600000000000).2.2.1 (by decide),
   (tokenRoundTrip ⟨"507f1f77bcf86cd799439011"⟩ "test@example.com" "secret" 0
      0).2.2.2 (by decide)⟩

/-- C3: access resolution — the owner always resolves to admin regardless
of the member list; a non-owner with a member entry resolves to that
entry's stored level (unique by the at-most-once invariant on member user
ids); a non-owner with no entry resolves to the no-access outcome
`("", false)`. -/
theorem getMemberAccessLevel_spec (c : Circle) (uid : ObjectID) :
    (c.ownerID = uid → GetMemberAccessLevel c uid = (AccessLevelAdmin, true)) ∧
    (c.ownerID ≠ uid →
      ∀ m ∈ c.members, m.userID = uid →
        (c.members.map (fun x => x.userID)).Nodup →
        GetMemberAccessLevel c uid = (m.accessLevel, true)) ∧
    (c.ownerID ≠ uid →
      (∀ m ∈ c.members, m.userID ≠ uid) →
        GetMemberAccessLevel c uid = (("" : String), false)) := by
  refine ⟨fun h => ?_, fun h m hm hid hnodup => ?_, fun h habs => ?_⟩
  · simp [GetMemberAccessLevel, h]
  · simp [GetMemberAccessLevel, h, lookupMember_eq_some hnodup hm hid]
  · simp [GetMemberAccessLevel, h, lookupMember_eq_none habs]

/-- Witness for C3 at the spec's scenario: owner resolves to admin, the
view-level member to view, and an unrelated user to no access. -/
theorem getMemberAccessLevel_witness :
    GetMemberAccessLevel
        { id := ⟨"c1"⟩, name := "Friends", ownerID := ⟨"owner"⟩,
          members := [{ userID := ⟨"member"⟩, accessLevel := AccessLevelView,
                        invitedAt := 0 }],
          createdAt := 0, updatedAt := 0 } ⟨"owner"⟩ = (AccessLevelAdmin, true) ∧
    GetMemberAccessLevel
        { id := ⟨"c1"⟩, name := "Friends", ownerID := ⟨"owner"⟩,
          members := [{ userID := ⟨"member"⟩, accessLevel := AccessLevelView,
                        invitedAt := 0 }],
          createdAt := 0, updatedAt := 0 } ⟨"member"⟩ = (AccessLevelView, true) ∧
    GetMemberAccessLevel
        { id := ⟨"c1"⟩, name := "Friends", ownerID := ⟨"owner"⟩,
          members := [{ userID := ⟨"member"⟩, accessLevel := AccessLevelView,
                        invitedAt := 0 }],
          createdAt := 0, updatedAt := 0 } ⟨"random"⟩ = (("" : String), false) :=
  ⟨(getMemberAccessLevel_spec _ ⟨"owner"⟩).1 (by decide),
   (getMemberAccessLevel_spec _ ⟨"member"⟩).2.1 (by decide)
      { userID := ⟨"member"⟩, accessLevel := AccessLevelView, invitedAt := 0 }
      (by decide) (by decide) (by decide),
   (getMemberAccessLevel_spec _ ⟨"random"⟩).2.2 (by decide) (by decide)⟩

/-- C9: `generateRandomState` is a constant function — any two calls
return the identical string, namely `"random-state-"` followed by the
replacement character that Go's `string(rune(123456789))` produces — so
every OAuth login attempt sets the same `oauth_state` cookie value. -/
theorem generateRandomState_constant :
    (∀ a b : Unit, generateRandomState a = generateRandomState b) ∧
    (∀ a b : Unit, oauthStateCookieValue a = oauthStateCookieValue b) ∧
    generateRandomState () = "random-state-�" :=
  ⟨fun _ _ => rfl, fun _ _ => rfl, by decide⟩

/-- The first scan of `getGitHubUserEmail` is the first
primary-and-verified entry of the list. -/
theorem findPrimaryVerifiedEmail_eq_find (l : List GitHubEmail) :
    findPrimaryVerifiedEmail l =
      (l.find? (fun e => e.primary && e.verified)).map (fun e => e.email) := by
  induction l with
  | nil => rfl
  | cons e rest ih =>
    simp only [findPrimaryVerifiedEmail, List.find?]
    cases hp : (e.primary && e.verified) with
    | true => simp [hp]
    | false => simp [hp, ih]

/-- The second scan of `getGitHubUserEmail` is the first verified entry of
the list. -/
theorem findVerifiedEmail_eq_find (l : List GitHubEmail) :
    findVerifiedEmail l = (l.find? (fun e => e.verified)).map (fun e => e.email) := by
  induction l with
  | nil => rfl
  | cons e rest ih =>
    simp only [findVerifiedEmail, List.find?]
    cases hp : e.verified with
    | true => simp [hp]
    | false => simp [hp, ih]

/-- C6: GitHub email selection — the resolved email is the first entry
marked primary and verified, else the first verified entry, else the first
entry, and the empty list fails with "no email found"; in particular a
single non-primary verified entry resolves to its address. -/
theorem githubEmailSelection (emails : List GitHubEmail) :
    getGitHubUserEmail emails = specEmailSelection emails ∧
    getGitHubUserEmail ([] : List GitHubEmail) = .error "no email found for user" ∧
    getGitHubUserEmail [{ email := "x@y.com", primary := false, verified := true }] =
      .ok "x@y.com" := by
  refine ⟨?_, rfl, rfl⟩
  unfold getGitHubUserEmail specEmailSelection
  rw [findPrimaryVerifiedEmail_eq_find, findVerifiedEmail_eq_find]
  cases h1 : emails.find? (fun e => e.primary && e.verified) with
  | some e => rfl
  | none =>
    cases h2 : emails.find? (fun e => e.verified) with
    | some e => rfl
    | none =>
      cases emails with
      | nil => rfl
      | cons e rest => simp [List.headI]

/-- C2 counterexample: at the empty email — a case the claim's
"for every email" covers — a lookup that would yield NotFound never
happens; `Login` returns the `emailRequired` validation error, not
`invalidCredentials`, so the claim fails as stated. -/
theorem loginEmptyEmail_counterexample :
    Login "" "x" (.error .userNotFound) (fun _ _ => false) "secret" 0 3600 =
      .error .emailRequired ∧
    Login "" "x" (.error .userNotFound) (fun _ _ => false) "secret" 0 3600 ≠
      .error .invalidCredentials := by
  exact ⟨rfl, by decide⟩

/-- C2 amended: for every NON-EMPTY email and non-empty password, `Login`
returns the single error `invalidCredentials` both when the directory
lookup yields the NotFound sentinel and when a user is found but the
password does not verify against the stored hash; the two failure cases
are indistinguishable by the returned error. -/
theorem loginUniformInvalidCredentials (email password : String) (u : User)
    (cryptoEq : String → String → Bool) (secret : String) (now dur : Int)
    (hemail : email ≠ "") (hpw : password ≠ "") :
    Login email password (.error .userNotFound) cryptoEq secret now dur =
      .error .invalidCredentials ∧
    (VerifyPassword cryptoEq u.passwordHash password = false →
      Login email password (.ok u) cryptoEq secret now dur =
        .error .invalidCredentials) := by
  constructor
  · simp [Login, hemail, hpw]
  · intro hv
    simp [Login, hemail, hpw, hv]

/-- Witness for C2's amended claim at the spec's scenario: a wrong
password against a stored bcrypt hash and a missing user both yield
`invalidCredentials`. -/
theorem loginUniformInvalidCredentials_witness :
    Login "missing@b.com" "x" (.error .userNotFound) (fun _ _ => false) "secret" 0 3600 =
      .error .invalidCredentials ∧
    Login "a@b.com" "wrong"
        (.ok { id := ⟨"u1"⟩, email := "a@b.com",
               passwordHash := "$2a$10$N9qo8uLOickgx2ZMRZoMyeIjZAgcfl7p92ldGxad68LJZdL17lhWy",
               name := "A", createdAt := 0, updatedAt := 0 })
        (fun _ _ => false) "secret" 0 3600 =
      .error .invalidCredentials :=
  ⟨(loginUniformInvalidCredentials "missing@b.com" "x"
      { id := ⟨"u1"⟩, email := "a@b.com", name := "A", createdAt := 0, updatedAt := 0 }
      (fun _ _ => false) "secret" 0 3600 (by decide) (by decide)).1,
   (loginUniformInvalidCredentials "a@b.com" "wrong"
      { id := ⟨"u1"⟩, email := "a@b.com",
        passwordHash := "$2a$10$N9qo8uLOickgx2ZMRZoMyeIjZAgcfl7p92ldGxad68LJZdL17lhWy",
        name := "A", createdAt := 0, updatedAt := 0 }
      (fun _ _ => false) "secret" 0 3600 (by decide) (by decide)).2 (by decide)⟩

/-- C7: Register validation — the checks fire in source order: empty
email, empty password, empty name, email format, then minimum password
length; once the earlier checks pass, `passwordTooShort` is returned
exactly when the password's byte length is below 8. -/
theorem registerValidation (email password name : String)
    (lookupRes : Except RepoUserErr User) (insertRes : Option StorageErr)
    (hashFn : String → String) (newID : ObjectID) (now dur : Int) (secret : String) :
    (email = "" →
      Register email password name lookupRes insertRes hashFn newID now dur secret =
        .error .emailRequired) ∧
    (email ≠ "" → password = "" →
      Register email password name lookupRes insertRes hashFn newID now dur secret =
        .error .passwordRequired) ∧
    (email ≠ "" → password ≠ "" → name = "" →
      Register email password name lookupRes insertRes hashFn newID now dur secret =
        .error .nameRequired) ∧
    (email ≠ "" → password ≠ "" → name ≠ "" → emailRegexMatch email = false →
      Register email password name lookupRes insertRes hashFn newID now dur secret =
        .error .invalidEmail) ∧
    (email ≠ "" → password ≠ "" → name ≠ "" → emailRegexMatch email = true →
      (Register email password name lookupRes insertRes hashFn newID now dur secret =
          .error .passwordTooShort ↔ goLen password < 8)) := by
  refine ⟨fun h1 => ?_, fun h1 h2 => ?_, fun h1 h2 h3 => ?_, fun h1 h2 h3 h4 => ?_,
    fun h1 h2 h3 h4 => ?_⟩
  · simp [Register, h1]
  · simp [Register, h1, h2]
  · simp [Register, h1, h2, h3]
  · simp [Register, h1, h2, h3, h4]
  · constructor
    · intro hres
      by_contra hlen
      rw [Nat.not_lt] at hlen
      have hge : ¬ goLen password < minPasswordLength := Nat.not_lt.mpr hlen
      rcases lookupRes with e | u
      · rcases e with _ | cause | cause <;>
          rcases insertRes with _ | s <;>
          simp [Register, h1, h2, h3, h4, hge, mongoUserCreate] at hres
      · simp [Register, h1, h2, h3, h4, hge] at hres
    · intro hlen
      simp [Register, h1, h2, h3, h4, minPasswordLength, hlen]

/-- Witness for C7 at the boundary: with otherwise valid inputs, a 7-byte
password is rejected with `passwordTooShort` and an 8-byte password passes
the length check. -/
theorem registerValidation_witness :
    Register "a@b.com" "1234567" "A" (.error .userNotFound) none id ⟨"id1"⟩ 0 3600 "s" =
      .error .passwordTooShort ∧
    ¬ (Register "a@b.com" "12345678" "A" (.error .userNotFound) none id ⟨"id1"⟩ 0 3600 "s" =
        .error .passwordTooShort) :=
  ⟨((registerValidation "a@b.com" "1234567" "A" (.error .userNotFound) none id
        ⟨"id1"⟩ 0 3600 "s").2.2.2.2 (by decide) (by decide) (by decide) (by decide)).mpr
      (by decide),
   fun h =>
     absurd (((registerValidation "a@b.com" "12345678" "A" (.error .userNotFound) none id
        ⟨"id1"⟩ 0 3600 "s").2.2.2.2 (by decide) (by decide) (by decide) (by decide)).mp h)
      (by decide)⟩

/-- C4 counterexample: `AddMember` succeeds on a circle whose member list
already contains the given user id, appending a second entry for it —
refuting both the claimed duplicate failure and the claimed preservation
of the at-most-once invariant. -/
theorem addMemberDuplicate_counterexample :
    AddMember
        (some { id := ⟨"c1"⟩, name := "Friends", ownerID := ⟨"o1"⟩,
                members := [{ userID := ⟨"u1"⟩, accessLevel := AccessLevelView,
                              invitedAt := 0 }],
                createdAt := 0, updatedAt := 0 })
        { userID := ⟨"u1"⟩, accessLevel := AccessLevelEdit, invitedAt := 1 } 2 =
      .ok { id := ⟨"c1"⟩, name := "Friends", ownerID := ⟨"o1"⟩,
            members := [{ userID := ⟨"u1"⟩, accessLevel := AccessLevelView,
                          invitedAt := 0 },
                        { userID := ⟨"u1"⟩, accessLevel := AccessLevelEdit,
                          invitedAt := 1 }],
            createdAt := 0, updatedAt := 2 } := rfl

/-- C4 amended: `AddMember` fails only when the circle is absent and
otherwise appends the member unconditionally — it performs no duplicate
check, so it does not preserve the at-most-once invariant — while
`RemoveMember` and `UpdateMemberAccess` fail when the user id is absent
from the found circle's member list. -/
theorem membershipOperations (c : Circle) (m : CircleMember) (uid : ObjectID)
    (lvl : AccessLevel) (now : Int) :
    AddMember none m now = .error .circleNotFound ∧
    AddMember (some c) m now =
      .ok { c with members := c.members ++ [m], updatedAt := now } ∧
    ((∀ x ∈ c.members, x.userID ≠ uid) →
      RemoveMember (some c) uid now = .error .memberNotFound ∧
      UpdateMemberAccess (some c) uid lvl now = .error .memberNotFound) := by
  refine ⟨rfl, rfl, fun h => ?_⟩
  have hany : c.members.any (fun x => x.userID = uid) = false := by
    simp only [List.any_eq_false, decide_eq_true_eq]
    exact h
  exact ⟨by simp [RemoveMember, hany], by simp [UpdateMemberAccess, hany]⟩

/-- Witness for C4's amended claim at concrete inputs: adding to a missing
circle fails, adding to a found circle appends, and removing or updating
an absent member fails. -/
theorem membershipOperations_witness :
    AddMember none
        { userID := ⟨"u9"⟩, accessLevel := AccessLevelView, invitedAt := 0 } 1 =
      .error .circleNotFound ∧
    AddMember
        (some { id := ⟨"c2"⟩, name := "Family", ownerID := ⟨"o2"⟩, members := [],
                createdAt := 0, updatedAt := 0 })
        { userID := ⟨"u9"⟩, accessLevel := AccessLevelView, invitedAt := 0 } 1 =
      .ok { id := ⟨"c2"⟩, name := "Family", ownerID := ⟨"o2"⟩,
            members := [{ userID := ⟨"u9"⟩, accessLevel := AccessLevelView,
                          invitedAt := 0 }],
            createdAt := 0, updatedAt := 1 } ∧
    RemoveMember
        (some { id := ⟨"c2"⟩, name := "Family", ownerID := ⟨"o2"⟩, members := [],
                createdAt := 0, updatedAt := 0 }) ⟨"u9"⟩ 1 =
      .error .memberNotFound ∧
    UpdateMemberAccess
        (some { id := ⟨"c2"⟩, name := "Family", ownerID := ⟨"o2"⟩, members := [],
                createdAt := 0, updatedAt := 0 }) ⟨"u9"⟩ AccessLevelEdit 1 =
      .error .memberNotFound := by
  obtain ⟨h1, h2, h3⟩ :=
    membershipOperations
      { id := ⟨"c2"⟩, name := "Family", ownerID := ⟨"o2"⟩, members := [],
        createdAt := 0, updatedAt := 0 }
      { userID := ⟨"u9"⟩, accessLevel := AccessLevelView, invitedAt := 0 }
      ⟨"u9"⟩ AccessLevelEdit 1
  obtain ⟨h4, h5⟩ := h3 (by intro x hx; simp at hx)
  exact ⟨h1, h2, h4, h5⟩

/-- C5 counterexample: when the pre-create lookup saw the email absent
but the storage insert reports a duplicate-key uniqueness violation (the
concurrent-registration race), `Register` returns the generic wrapped
create failure — the violation is NOT translated into the
`emailAlreadyExists` error kind. -/
theorem registerDuplicateKey_counterexample :
    Register "a@b.com" "password2" "B" (.error .userNotFound) (some .duplicateKey)
        id ⟨"id2"⟩ 0 3600 "s" =
      .error (.createUserFailed (.createFailed .duplicateKey)) ∧
    Register "a@b.com" "password2" "B" (.error .userNotFound) (some .duplicateKey)
        id ⟨"id2"⟩ 0 3600 "s" ≠
      .error .emailAlreadyExists := by
  exact ⟨rfl, by decide⟩

/-- C5 amended: a storage uniqueness violation at the create step is
propagated as the generic wrapped create failure (`mongoUserRepository.Create`
wraps every insert error uniformly and `Service.Register` wraps it again);
the `emailAlreadyExists` conflict outcome arises only when the pre-create
lookup finds a user with the email — which is what a sequential second
`Register` with an already-registered email hits. -/
theorem registerDuplicateEmailBehavior (email password name : String)
    (hashFn : String → String) (newID : ObjectID) (now dur : Int) (secret : String)
    (h1 : email ≠ "") (h2 : password ≠ "") (h3 : name ≠ "")
    (h4 : emailRegexMatch email = true) (h5 : ¬ goLen password < 8) :
    Register email password name (.error .userNotFound) (some .duplicateKey)
        hashFn newID now dur secret =
      .error (.createUserFailed (.createFailed .duplicateKey)) ∧
    (∀ u insertRes,
      Register email password name (.ok u) insertRes hashFn newID now dur secret =
        .error .emailAlreadyExists) := by
  have h5' : ¬ goLen password < minPasswordLength := h5
  constructor
  · simp [Register, h1, h2, h3, h4, h5', mongoUserCreate]
  · intro u insertRes
    simp [Register, h1, h2, h3, h4, h5']

/-- Witness for C5's amended claim at the spec's scenario inputs. -/
theorem registerDuplicateEmailBehavior_witness :
    Register "a@b.com" "password2" "B" (.error .userNotFound) (some .duplicateKey)
        id ⟨"id2"⟩ 0 3600 "s" =
      .error (.createUserFailed (.createFailed .duplicateKey)) ∧
    Register "a@b.com" "password2" "B"
        (.ok { id := ⟨"id1"⟩, email := "a@b.com", passwordHash := "h", name := "A",
               createdAt := 0, updatedAt := 0 })
        none id ⟨"id2"⟩ 0 3600 "s" =
      .error .emailAlreadyExists :=
  ⟨(registerDuplicateEmailBehavior "a@b.com" "password2" "B" id ⟨"id2"⟩ 0 3600 "s"
      (by decide) (by decide) (by decide) (by decide) (by decide)).1,
   (registerDuplicateEmailBehavior "a@b.com" "password2" "B" id ⟨"id2"⟩ 0 3600 "s"
      (by decide) (by decide) (by decide) (by decide) (by decide)).2
     { id := ⟨"id1"⟩, email := "a@b.com", passwordHash := "h", name := "A",
       createdAt := 0, updatedAt := 0 } none⟩

/-- C8: linkage backfill frame property — a resolved existing user whose
provider linkage is non-empty is returned entirely unchanged (so a
linkage from a different provider is never overwritten); only a user with
an empty linkage has the GitHub linkage fields backfilled. -/
theorem oauthLinkageFrame (u : User) (info : GitHubUserInfo) (email : String)
    (newID : ObjectID) (now : Int) :
    (u.oauthProvider ≠ "" →
      resolveGitHubUser (.ok u) info email newID now = .ok u) ∧
    (u.oauthProvider = "" →
      resolveGitHubUser (.ok u) info email newID now =
        .ok { u with oauthProvider := toString info.id,
                     oauthProviderName := "github", updatedAt := now }) := by
  constructor
  · intro h
    simp [resolveGitHubUser, h]
  · intro h
    simp [resolveGitHubUser, h]

/-- Witness for C8: a user already linked to Google keeps both linkage
fields through a GitHub callback; an unlinked user is backfilled. -/
theorem oauthLinkageFrame_witness :
    resolveGitHubUser
        (.ok { id := ⟨"u1"⟩, email := "a@b.com", name := "A",
               oauthProvider := "google-user-123", oauthProviderName := "google",
               createdAt := 0, updatedAt := 0 })
        { id := 42, login := "gh", name := "A" } "a@b.com" ⟨"new"⟩ 9 =
      .ok { id := ⟨"u1"⟩, email := "a@b.com", name := "A",
            oauthProvider := "google-user-123", oauthProviderName := "google",
            createdAt := 0, updatedAt := 0 } ∧
    resolveGitHubUser
        (.ok { id := ⟨"u1"⟩, email := "a@b.com", name := "A",
               createdAt := 0, updatedAt := 0 })
        { id := 42, login := "gh", name := "A" } "a@b.com" ⟨"new"⟩ 9 =
      .ok { id := ⟨"u1"⟩, email := "a@b.com", name := "A",
            oauthProvider := "42", oauthProviderName := "github",
            createdAt := 0, updatedAt := 9 } :=
  ⟨(oauthLinkageFrame
      { id := ⟨"u1"⟩, email := "a@b.com", name := "A",
        oauthProvider := "google-user-123", oauthProviderName := "google",
        createdAt := 0, updatedAt := 0 }
      { id := 42, login := "gh", name := "A" } "a@b.com" ⟨"new"⟩ 9).1 (by decide),
   (oauthLinkageFrame
      { id := ⟨"u1"⟩, email := "a@b.com", name := "A",
        createdAt := 0, updatedAt := 0 }
      { id := 42, login := "gh", name := "A" } "a@b.com" ⟨"new"⟩ 9).2 rfl⟩

/-- C10: a user record created through the OAuth callback carries an empty
password hash, and password login for such a user fails with
`invalidCredentials` for every non-empty password, because bcrypt
comparison against the empty hash fails regardless of the cryptographic
comparison. -/
theorem oauthUserCannotPasswordLogin (info : GitHubUserInfo) (email : String)
    (newID : ObjectID) (now : Int) (u : User)
    (hres : resolveGitHubUser (.error .userNotFound) info email newID now = .ok u)
    (password : String) (cryptoEq : String → String → Bool)
    (secret : String) (now2 dur : Int) :
    u.passwordHash = "" ∧
    (u.email ≠ "" → password ≠ "" →
      Login u.email password (.ok u) cryptoEq secret now2 dur =
        .error .invalidCredentials) := by
  have hu : u = { id := newID, email := email, name := info.name,
                  oauthProvider := toString info.id,
                  oauthProviderName := "github",
                  createdAt := now, updatedAt := now } := by
    have h' := hres
    simp only [resolveGitHubUser, Except.ok.injEq] at h'
    exact h'.symm
  subst hu
  refine ⟨rfl, fun hemail hpw => ?_⟩
  have hv : VerifyPassword cryptoEq "" password = false := rfl
  simp [Login, hemail, hpw, hv]

/-- Witness for C10 at a concrete GitHub identity: the created account
stores no hash and cannot log in with the password "anything". -/
theorem oauthUserCannotPasswordLogin_witness :
    ({ id := ⟨"new"⟩, email := "x@y.com", name := "X",
       oauthProvider := "42", oauthProviderName := "github",
       createdAt := 7, updatedAt := 7 } : User).passwordHash = "" ∧
    Login "x@y.com" "anything"
        (.ok { id := ⟨"new"⟩, email := "x@y.com", name := "X",
               oauthProvider := "42", oauthProviderName := "github",
               createdAt := 7, updatedAt := 7 })
        (fun _ _ => true) "secret" 0 3600 =
      .error .invalidCredentials := by
  obtain ⟨h1, h2⟩ :=
    oauthUserCannotPasswordLogin { id := 42, login := "gh", name := "X" } "x@y.com"
      ⟨"new"⟩ 7
      { id := ⟨"new"⟩, email := "x@y.com", name := "X",
        oauthProvider := "42", oauthProviderName := "github",
        createdAt := 7, updatedAt := 7 }
      rfl "anything" (fun _ _ => true) "secret" 0 3600
  exact ⟨h1, h2 (by decide) (by decide)⟩

end HobbyTracker
